import Mathlib

/-!
Shallow embedding of the CEP Lost & Found API (src/main.py, src/models.py,
src/auth_models.py, src/email_helper.py).

The relational store is modelled as lists of rows; `List.find?` models
`query(...).filter(...).first()` (SQLAlchemy returns the first matching row),
and `setFirst` models an in-place mutation of that row followed by `commit`.
Timestamps are abstract naturals threaded in as a `now` parameter where the
source calls `datetime.utcnow()`; image blobs are byte lists.  The SMTP
transport outcome, which in the source is the implicit behaviour of
`smtplib`, is threaded in as an explicit `delivered : Bool`.

The store-managed `updated_at` columns (set by the database `onupdate` hook,
never touched by handler code) are not modelled.
-/

namespace LostFound

/-- Single-quote character, used when composing response and email strings
that quote words in the source. -/
def sq : String := String.singleton (Char.ofNat 39)

/-- Drop leading whitespace characters from a character list. -/
def stripLeftChars : List Char → List Char
  | [] => []
  | c :: cs => if c.isWhitespace then stripLeftChars cs else c :: cs

/-- Python str.strip() with no argument: remove whitespace from both ends.
(Python also strips some rarer Unicode whitespace; the claims only involve
ASCII whitespace, where the two agree.) -/
def pyStrip (s : String) : String :=
  ⟨(stripLeftChars (stripLeftChars s.data.reverse).reverse)⟩

/-- Character-list core of `pyStartswith`: first argument the string, second
the candidate prefix. -/
def strStarts : List Char → List Char → Bool
  | _, [] => true
  | [], _ :: _ => false
  | c :: cs, p :: ps => c == p && strStarts cs ps

/-- Python str.startswith. -/
def pyStartswith (s pre : String) : Bool :=
  strStarts s.data pre.data

/-- Row of the `users` table (models.py, class User, lines 6-21).
Note the model declares `first_name` / `last_name` / `home_address`;
there is no `fullname` column. -/
structure User where
  id : Nat
  role : String
  first_name : String
  last_name : String
  home_address : String
  email : String
  field_of_study : String
  year : Nat
  password : String
  deriving Repr, DecidableEq

/-- Row of the `lost_items` table (models.py, class LostItem, lines 23-40).
Note the model declares no `item_type` column, although main.py passes
`item_type=` to the constructor and reads `item.item_type` in
`serialize_item`; both raise at run time (see `add_lost_item` below). -/
structure LostItem where
  id : Nat
  user_id : Nat
  item_name : String
  item_description : String
  item_image : List Nat
  email : String
  date : Nat
  location : String
  found : Bool
  status : String
  created_at : Nat
  deriving Repr, DecidableEq

/-- Row of the `claims` table (models.py, class Claim, lines 42-54). -/
structure Claim where
  id : Nat
  user_id : Nat
  item_id : Nat
  claim_message : String
  status : String
  created_at : Nat
  deriving Repr, DecidableEq

/-- The relational store: the three tables reached through `SessionLocal`. -/
structure DB where
  users : List User
  items : List LostItem
  claims : List Claim
  deriving Repr, DecidableEq

/-- Uniform response envelope used by every endpoint:
`{status_code, {"status": ..., "message": ..., "data": ...}}`.
The `"status"` field of the JSON body is determined by `status_code`
(success iff 200), so it is not duplicated here. -/
structure ApiResponse (α : Type) where
  status_code : Nat
  message : String
  data : Option α
  deriving Repr, DecidableEq

/-- Failure envelope: `{"status": "failed", "message": msg, "data": None}`. -/
def failure (α : Type) (code : Nat) (msg : String) : ApiResponse α :=
  { status_code := code, message := msg, data := none }

/-- Mutate the first row satisfying `p` (the row `query.filter(...).first()`
returns) and leave every other row unchanged, as `setattr` + `commit` does. -/
def setFirst {α : Type} (p : α → Bool) (f : α → α) : List α → List α
  | [] => []
  | a :: rest => if p a then f a :: rest else a :: setFirst p f rest

/-- Pydantic request model `UserCreate` (auth_models.py lines 6-30): `role`,
`first_name`, `last_name`, `home_address`, `email`, `field_of_study`,
`year`, `password`.  There is no `fullname` field. -/
structure UserCreate where
  role : String
  first_name : String
  last_name : String
  home_address : String
  email : String
  field_of_study : String
  year : Nat
  password : String
  deriving Repr, DecidableEq

/-- POST /signup (main.py lines 72-127).  The duplicate-email check is first
(line 76).  Past it, the handler evaluates `user.fullname` while building the
ORM row (line 90), but `UserCreate` declares no `fullname` attribute, so
Python raises AttributeError; the generic handler (line 118) rolls back and
answers 500.  Hence every branch leaves the store unchanged and no fresh
registration ever succeeds. -/
def signup (db : DB) (user : UserCreate) : ApiResponse Nat × DB :=
  (match db.users.find? (fun u => u.email == user.email) with
   | some _ => failure Nat 400 "Email already registered"
   | none =>
       failure Nat 500
         ("Internal server error: " ++ sq ++ "UserCreate" ++ sq ++
          " object has no attribute " ++ sq ++ "fullname" ++ sq),
   db)

/-- An uploaded file as the handler sees it: `content_type` and the bytes
returned by `item_image.file.read()`. -/
structure UploadFile where
  content_type : String
  content : List Nat
  deriving Repr, DecidableEq

/-- POST /items/add (main.py lines 187-319).  Validations run in source
order: user exists (404), item_type in {lost, found}, name length 3-100,
description length 10-500, location length 3-100, content type starts with
image/, size at most 5 MiB (each 400).  Past all validations the handler
constructs `LostItem(item_type=item_type, ...)` (line 284), but the ORM
model has no `item_type` column, so SQLAlchemy raises TypeError before any
insert; the generic handler (line 310) rolls back and answers 500.  Hence
every branch leaves the store unchanged and no item row is ever created. -/
def add_lost_item (db : DB) (user_id : Nat) (item_type item_name item_description : String)
    (item_image : UploadFile) (email location : String) : ApiResponse Nat × DB :=
  (match db.users.find? (fun u => u.id == user_id) with
   | none => failure Nat 404 "User not found"
   | some _ =>
     if item_type != "lost" && item_type != "found" then
       failure Nat 400
         ("Item type must be either " ++ sq ++ "lost" ++ sq ++ " or " ++ sq ++ "found" ++ sq)
     else if item_name.length < 3 || item_name.length > 100 then
       failure Nat 400 "Item name must be between 3 and 100 characters"
     else if item_description.length < 10 || item_description.length > 500 then
       failure Nat 400 "Item description must be between 10 and 500 characters"
     else if location.length < 3 || location.length > 100 then
       failure Nat 400 "Location must be between 3 and 100 characters"
     else if !(pyStartswith item_image.content_type "image/") then
       failure Nat 400 "Uploaded file must be an image"
     else if item_image.content.length > 5 * 1024 * 1024 then
       failure Nat 400 "Image size must not exceed 5MB"
     else
       failure Nat 500
         ("Failed to add item: " ++ sq ++ "item_type" ++ sq ++
          " is an invalid keyword argument for LostItem"),
   db)

/-- POST /items/approve/{item_id} (main.py lines 321-356): look the item up
by id alone; 404 when absent; otherwise set `status = "approved"` with no
precondition on the current status and answer 200 with the new status. -/
def approve_item (db : DB) (item_id : Nat) : ApiResponse (Nat × String) × DB :=
  match db.items.find? (fun it => it.id == item_id) with
  | none => (failure (Nat × String) 404 "Item not found", db)
  | some item =>
    ({ status_code := 200,
       message := "Item " ++ toString item_id ++ " approved successfully",
       data := some (item.id, "approved") },
     { db with items := setFirst (fun it => it.id == item_id)
                 (fun it => { it with status := "approved" }) db.items })

/-- POST /items/reject/{item_id} (main.py lines 358-393): look the item up by
id alone; 404 when absent; otherwise set `status = "rejected"` with no
precondition on the current status (in particular the `found` flag is left
as it is) and answer 200 with the new status. -/
def reject_item (db : DB) (item_id : Nat) : ApiResponse (Nat × String) × DB :=
  match db.items.find? (fun it => it.id == item_id) with
  | none => (failure (Nat × String) 404 "Item not found", db)
  | some item =>
    ({ status_code := 200,
       message := "Item " ++ toString item_id ++ " rejected successfully",
       data := some (item.id, "rejected") },
     { db with items := setFirst (fun it => it.id == item_id)
                 (fun it => { it with status := "rejected" }) db.items })

/-- PUT /items/{item_id}/found (main.py lines 638-683): the row is looked up
by id AND owner (line 641); 404 when absent or owned by someone else; 400
when its status is not approved, leaving the store untouched.  Otherwise
`found = True` is committed (line 663); the response is then built from
`serialize_item(item)` (line 671), which reads `item.item_type` — a column
the ORM model does not declare — so AttributeError is raised after the
commit, the generic handler (line 674) answers 500, and the rollback is a
no-op on the already committed transaction: the `found` update persists. -/
def mark_as_found (db : DB) (item_id user_id : Nat) : ApiResponse LostItem × DB :=
  match db.items.find? (fun it => it.id == item_id && it.user_id == user_id) with
  | none => (failure LostItem 404 "Item not found or unauthorized", db)
  | some item =>
    if item.status != "approved" then
      (failure LostItem 400 "Only approved items can be marked as found", db)
    else
      (failure LostItem 500
         ("Failed to mark item as found: " ++ sq ++ "LostItem" ++ sq ++
          " object has no attribute " ++ sq ++ "item_type" ++ sq),
       { db with items := setFirst (fun it => it.id == item_id && it.user_id == user_id)
                   (fun it => { it with found := true }) db.items })

/-- Pydantic request model `LostItemUpdate` (auth_models.py lines 87-96):
four optional fields.  `some v` models a field present in
`model_dump(exclude_unset=True)`; `none` models a field absent from the
update payload. -/
structure LostItemUpdate where
  item_name : Option String
  item_description : Option String
  email : Option String
  location : Option String
  deriving Repr, DecidableEq

/-- The `for field, value in update_data.items(): setattr(item, field, value)`
loop of edit_item (main.py lines 603-605), applied to the four fields
`LostItemUpdate` declares. -/
def applyUpdate (item : LostItem) (u : LostItemUpdate) : LostItem :=
  let i1 := match u.item_name with
    | some v => { item with item_name := v }
    | none => item
  let i2 := match u.item_description with
    | some v => { i1 with item_description := v }
    | none => i1
  let i3 := match u.email with
    | some v => { i2 with email := v }
    | none => i2
  match u.location with
  | some v => { i3 with location := v }
  | none => i3

/-- PUT /items/{item_id}/edit (main.py lines 588-636): the row is looked up
by id AND owner (line 591); 404 when absent or owned by someone else,
leaving the store untouched.  Otherwise the present fields are applied and
committed (line 607); the response is then built from `serialize_item(item)`
(line 615), which reads the undeclared `item.item_type`, so AttributeError
is raised after the commit, the generic handler (line 627) answers 500, and
the rollback is a no-op: the committed field updates persist. -/
def edit_item (db : DB) (item_id user_id : Nat) (u : LostItemUpdate) :
    ApiResponse LostItem × DB :=
  match db.items.find? (fun it => it.id == item_id && it.user_id == user_id) with
  | none => (failure LostItem 404 "Item not found or unauthorized", db)
  | some _ =>
    (failure LostItem 500
       ("Failed to update item: " ++ sq ++ "LostItem" ++ sq ++
        " object has no attribute " ++ sq ++ "item_type" ++ sq),
     { db with items := setFirst (fun it => it.id == item_id && it.user_id == user_id)
                 (fun it => applyUpdate it u) db.items })

/-- Autoincrement primary key the store assigns to a freshly inserted claim:
one more than the largest id in the table. -/
def nextClaimId (db : DB) : Nat :=
  (db.claims.map (fun c => c.id)).foldr max 0 + 1

/-- POST /claim (main.py lines 687-786).  Checks in source order: the item
exists (404, line 691); the item is approved (400, line 703); the claimant
is not the owner (400, line 714); the claimant has no pending claim on this
item (400, line 725); the message is nonempty and its strip has length at
least 10 (400, line 742).  Past all checks a new claim row is inserted with
the trimmed message, status pending, and a store-assigned id; the data
payload carries `{claim_id, item_id, status}`. -/
def claim_item (db : DB) (item_id user_id : Nat) (claim_message : String) (now : Nat) :
    ApiResponse (Nat × Nat × String) × DB :=
  match db.items.find? (fun it => it.id == item_id) with
  | none => (failure (Nat × Nat × String) 404 "Item not found", db)
  | some item =>
    if item.status != "approved" then
      (failure (Nat × Nat × String) 400 "Items must be approved by admin before claiming", db)
    else if item.user_id == user_id then
      (failure (Nat × Nat × String) 400 "You cannot claim your own item", db)
    else if (db.claims.find? (fun c =>
        c.user_id == user_id && c.item_id == item_id && c.status == "pending")).isSome then
      (failure (Nat × Nat × String) 400 "You already have a pending claim for this item", db)
    else if claim_message = "" ∨ (pyStrip claim_message).length < 10 then
      (failure (Nat × Nat × String) 400 "Claim message must be at least 10 characters", db)
    else
      ({ status_code := 200,
         message := "Claim submitted successfully",
         data := some (nextClaimId db, item_id, "pending") },
       { db with claims := db.claims ++
           [{ id := nextClaimId db, user_id := user_id, item_id := item_id,
              claim_message := pyStrip claim_message, status := "pending", created_at := now }] })

/-- One notification handed to the transport: recipient, subject, body, and
the transport outcome (which the source discards, see `send_email`). -/
structure EmailAttempt where
  to_email : String
  subject : String
  body : String
  delivered : Bool
  deriving Repr, DecidableEq

/-- email_helper.py send_email (lines 5-43): composes the MIME message and
attempts SMTP delivery; every transport failure, authentication included, is
caught INSIDE the helper (lines 40-43) and only printed, so the call always
returns normally and returns no success indicator.  `delivered` records the
transport outcome for specification purposes; the attempt record is what
reached the transport. -/
def send_email (to_email subject body : String) (delivered : Bool) : Unit × EmailAttempt :=
  ((), { to_email := to_email, subject := subject, body := body, delivered := delivered })

/-- The lazy relationship traversal of the email block in approve_claim
(main.py lines 848-854): `claim.item`, `claim.item.user` (the item owner)
and `claim.user` (the claimant).  Any unresolvable hop raises inside the
inner try and is caught at line 860, in which case no email is attempted
and `email_sent` stays False. -/
def notifLookup (db : DB) (c : Claim) : Option (LostItem × User × User) :=
  (db.items.find? (fun it => it.id == c.item_id)).bind (fun item =>
    (db.users.find? (fun u => u.id == item.user_id)).bind (fun owner =>
      (db.users.find? (fun u => u.id == c.user_id)).map (fun claimant =>
        (item, owner, claimant))))

/-- Email body composed at main.py lines 850-857 (the f-string, with the
claimant display name and the claim message interpolated). -/
def claimEmailBody (owner claimant : User) (item : LostItem) (c : Claim) : String :=
  "Hello " ++ owner.first_name ++ ",<br><br>" ++
  "Your found item <b>" ++ item.item_name ++ "</b> has been claimed by " ++
  claimant.first_name ++ " " ++ claimant.last_name ++ ".<br><br>" ++
  "<b>Message from claimer:</b> " ++ c.claim_message ++ "<br><br>" ++
  "Please contact the claimer to arrange item return.<br><br>" ++
  "Regards,<br>CEP Lost & Found Team"

/-- Data payload of the claim-approval response (main.py lines 869-873). -/
structure ClaimDecisionData where
  claim_id : Nat
  status : String
  email_sent : Bool
  deriving Repr, DecidableEq

/-- PUT /claims/{claim_id}/approve (main.py lines 827-885): look the claim up
by id; 404 when absent.  Otherwise `status = "approved"` is committed first
(line 842), with no precondition on the current status; then the email block
runs: if the owner and claimant records resolve, exactly one email is handed
to the transport, addressed to the item owner, and `email_sent` is set True
— note `send_email` cannot raise, so `email_sent` is True whenever the
message was composed, regardless of the transport outcome; if the traversal
fails, the exception is caught (line 860) and `email_sent` stays False.
Either way the response is 200 and the committed status stands.  The third
component collects the attempts handed to the transport. -/
def approve_claim (db : DB) (claim_id : Nat) (delivered : Bool) :
    ApiResponse ClaimDecisionData × DB × List EmailAttempt :=
  match db.claims.find? (fun c => c.id == claim_id) with
  | none => (failure ClaimDecisionData 404 "Claim not found", db, [])
  | some claim =>
    let db2 : DB :=
      { db with claims := setFirst (fun c => c.id == claim_id)
                  (fun c => { c with status := "approved" }) db.claims }
    match notifLookup db claim with
    | some (item, owner, claimant) =>
      let subject := "Your found item " ++ sq ++ item.item_name ++ sq ++ " has been claimed"
      let body := claimEmailBody owner claimant item claim
      let sent := send_email owner.email subject body delivered
      ({ status_code := 200,
         message := "Claim " ++ toString claim_id ++ " approved and finder notified by email",
         data := some { claim_id := claim.id, status := "approved", email_sent := true } },
       db2, [sent.2])
    | none =>
      ({ status_code := 200,
         message := "Claim " ++ toString claim_id ++ " approved (email notification failed)",
         data := some { claim_id := claim.id, status := "approved", email_sent := false } },
       db2, [])

/-- PUT /claims/{claim_id}/reject (main.py lines 887-922): look the claim up
by id; 404 when absent; otherwise `status = "rejected"` is committed, with no
precondition on the current status.  The handler contains no email call, so
the list of attempts handed to the transport is empty on every path. -/
def reject_claim (db : DB) (claim_id : Nat) :
    ApiResponse (Nat × String) × DB × List EmailAttempt :=
  match db.claims.find? (fun c => c.id == claim_id) with
  | none => (failure (Nat × String) 404 "Claim not found", db, [])
  | some claim =>
    ({ status_code := 200,
       message := "Claim " ++ toString claim_id ++ " rejected successfully",
       data := some (claim.id, "rejected") },
     { db with claims := setFirst (fun c => c.id == claim_id)
                 (fun c => { c with status := "rejected" }) db.claims },
     [])

/-! Concrete fixtures used by witnesses and counterexamples. -/

/-- Sample student who reported items. -/
def alice : User :=
  { id := 1, role := "student", first_name := "Alice", last_name := "Ahmed",
    home_address := "12 Campus Road", email := "alice@uni.edu",
    field_of_study := "CS", year := 2, password := "hash1" }

/-- Sample student who submits claims. -/
def bob : User :=
  { id := 2, role := "student", first_name := "Bob", last_name := "Khan",
    home_address := "7 Hostel Lane", email := "bob@uni.edu",
    field_of_study := "EE", year := 3, password := "hash2" }

/-- Approved item owned by alice. -/
def approvedItem : LostItem :=
  { id := 1, user_id := 1, item_name := "Black Wallet",
    item_description := "A black leather wallet with cards",
    item_image := [3, 1, 4], email := "alice@uni.edu", date := 20250101,
    location := "Library", found := false, status := "approved", created_at := 100 }

/-- Pending item owned by alice. -/
def pendingItem : LostItem :=
  { id := 2, user_id := 1, item_name := "Silver Keychain",
    item_description := "A silver keychain with five keys",
    item_image := [1, 5, 9], email := "alice@uni.edu", date := 20250102,
    location := "Cafeteria", found := false, status := "pending", created_at := 101 }

/-- Approved item owned by alice that was already marked found. -/
def foundItem : LostItem :=
  { id := 3, user_id := 1, item_name := "Blue Backpack",
    item_description := "A blue backpack with a laptop sleeve",
    item_image := [2, 6, 5], email := "alice@uni.edu", date := 20250103,
    location := "Gym", found := true, status := "approved", created_at := 102 }

/-- Pending claim by bob on item 1. -/
def pendingClaim : Claim :=
  { id := 1, user_id := 2, item_id := 1,
    claim_message := "I lost this near the library, serial ABC123",
    status := "pending", created_at := 150 }

/-- Claim by bob on item 1 that an admin already approved. -/
def approvedClaim : Claim :=
  { id := 2, user_id := 2, item_id := 1,
    claim_message := "The wallet has my student card inside it",
    status := "approved", created_at := 151 }

/-- Store holding the fixtures above. -/
def dbMain : DB :=
  { users := [alice, bob],
    items := [approvedItem, pendingItem, foundItem],
    claims := [pendingClaim, approvedClaim] }

/-! Helper lemmas about `setFirst` and the store. -/

theorem setFirst_of_find?_none {α : Type} (p : α → Bool) (f : α → α) :
    ∀ l : List α, l.find? p = none → setFirst p f l = l := by
  intro l
  induction l with
  | nil => intro _; rfl
  | cons a rest ih =>
    intro h
    rw [List.find?_cons] at h
    cases hpa : p a with
    | true => simp [hpa] at h
    | false =>
      simp only [hpa] at h
      simp [setFirst, hpa, ih h]

theorem mem_setFirst {α : Type} (p : α → Bool) (f : α → α) :
    ∀ (l : List α) (x : α), x ∈ setFirst p f l →
      x ∈ l ∨ ∃ y, l.find? p = some y ∧ x = f y := by
  intro l
  induction l with
  | nil => intro x hx; exact absurd hx (by simp [setFirst])
  | cons a rest ih =>
    intro x hx
    cases hpa : p a with
    | true =>
      simp only [setFirst, hpa, if_pos] at hx
      rcases List.mem_cons.mp hx with h | h
      · exact Or.inr ⟨a, by simp [List.find?_cons, hpa], h⟩
      · exact Or.inl (List.mem_cons_of_mem _ h)
    | false =>
      simp only [setFirst, hpa] at hx
      rcases List.mem_cons.mp hx with h | h
      · exact Or.inl (h ▸ List.mem_cons_self a rest)
      · rcases ih x h with h1 | ⟨y, hy, hxy⟩
        · exact Or.inl (List.mem_cons_of_mem _ h1)
        · exact Or.inr ⟨y, by simp [List.find?_cons, hpa, hy], hxy⟩

theorem setFirst_mem_of_find? {α : Type} (p : α → Bool) (f : α → α) :
    ∀ (l : List α) (y : α), l.find? p = some y → f y ∈ setFirst p f l := by
  intro l
  induction l with
  | nil => intro y hy; simp [List.find?] at hy
  | cons a rest ih =>
    intro y hy
    rw [List.find?_cons] at hy
    cases hpa : p a with
    | true =>
      simp only [hpa] at hy
      cases hy
      simp [setFirst, hpa]
    | false =>
      simp only [hpa] at hy
      simp only [setFirst, hpa, if_neg]
      exact List.mem_cons_of_mem _ (ih y hy)

/-- The found-implies-approved invariant over the item table. -/
def dbInv (db : DB) : Prop :=
  ∀ it ∈ db.items, it.found = true → it.status = "approved"

instance (db : DB) : Decidable (dbInv db) := by
  unfold dbInv
  infer_instance

/-- The update loop touches only the four declared fields: every other
column of the row is unchanged, and a field absent from the payload keeps
its value. -/
theorem applyUpdate_frame (it : LostItem) (u : LostItemUpdate) :
    (applyUpdate it u).status = it.status ∧ (applyUpdate it u).found = it.found ∧
    (applyUpdate it u).item_image = it.item_image ∧ (applyUpdate it u).user_id = it.user_id ∧
    (applyUpdate it u).date = it.date ∧ (applyUpdate it u).created_at = it.created_at ∧
    (applyUpdate it u).id = it.id ∧
    (u.item_name = none → (applyUpdate it u).item_name = it.item_name) ∧
    (u.item_description = none → (applyUpdate it u).item_description = it.item_description) ∧
    (u.email = none → (applyUpdate it u).email = it.email) ∧
    (u.location = none → (applyUpdate it u).location = it.location) := by
  obtain ⟨n, d, e, l⟩ := u
  cases n <;> cases d <;> cases e <;> cases l <;> simp [applyUpdate]

/-- C1 (counterexample). The claim quantifies over every listed operation,
reject included; but rejecting an item that is already marked found leaves
`found = true` while overwriting `status` with rejected, so decide_item
reject does NOT preserve the invariant: concretely, `dbMain` satisfies the
invariant, item 3 is found and approved, and after `reject_item` the store
violates it. -/
theorem reject_item_breaks_found_invariant :
    dbInv dbMain ∧
    dbMain.items.find? (fun it => it.id == 3) = some foundItem ∧
    foundItem.found = true ∧
    (reject_item dbMain 3).1.status_code = 200 ∧
    ¬ dbInv (reject_item dbMain 3).2 := by
  refine ⟨by decide, by decide, by decide, by decide, by decide⟩

/-- C1 (amended). Every listed operation except decide_item reject preserves
the invariant that a found item is approved: item submission (which, as it
stands, never inserts a row), item approval, mark-as-found (guarded by the
approved check, and committing only the `found` flag), and item editing
(which can touch only name, description, email and location). -/
theorem lifecycle_preserves_found_invariant (db : DB) (h : dbInv db) :
    (∀ uid t n d img em loc, dbInv (add_lost_item db uid t n d img em loc).2)
    ∧ (∀ iid, dbInv (approve_item db iid).2)
    ∧ (∀ iid uid, dbInv (mark_as_found db iid uid).2)
    ∧ (∀ iid uid u, dbInv (edit_item db iid uid u).2) := by
  refine ⟨?_, ?_, ?_, ?_⟩
  · intro _ _ _ _ _ _ _
    exact h
  · intro iid
    unfold approve_item
    cases hf : db.items.find? (fun it => it.id == iid) with
    | none => simpa using h
    | some item =>
      simp only
      intro x hx hfound
      rcases mem_setFirst _ _ _ x hx with hmem | ⟨y, _, rfl⟩
      · exact h x hmem hfound
      · rfl
  · intro iid uid
    unfold mark_as_found
    cases hf : db.items.find? (fun it => it.id == iid && it.user_id == uid) with
    | none => simpa using h
    | some item =>
      simp only
      split
      · exact h
      · next hst =>
        have happ : item.status = "approved" := by
          simpa [bne_iff_ne] using hst
        intro x hx hfound
        rcases mem_setFirst _ _ _ x hx with hmem | ⟨y, hy, rfl⟩
        · exact h x hmem hfound
        · have : y = item := by
            have := hy.symm.trans hf
            exact Option.some.inj this
          simpa [this] using happ
  · intro iid uid u
    unfold edit_item
    cases hf : db.items.find? (fun it => it.id == iid && it.user_id == uid) with
    | none => simpa using h
    | some item =>
      simp only
      intro x hx hfound
      rcases mem_setFirst _ _ _ x hx with hmem | ⟨y, hy, rfl⟩
      · exact h x hmem hfound
      · have hy' : y ∈ db.items := List.mem_of_find?_eq_some hy
        have hfr := applyUpdate_frame y u
        rw [hfr.1]
        exact h y hy' (by rw [← hfr.2.1]; exact hfound)

/-- C1 (witness). The amended preservation theorem applied to the fixture
store, which satisfies the invariant. -/
theorem lifecycle_preserves_found_invariant_witness :
    dbInv (approve_item dbMain 1).2 ∧ dbInv (mark_as_found dbMain 1 1).2 := by
  exact ⟨(lifecycle_preserves_found_invariant dbMain (by decide)).2.1 1,
         (lifecycle_preserves_found_invariant dbMain (by decide)).2.2.1 1 1⟩

/-- C10. edit_item can modify only name, description, email and location:
every row of the store after any edit_item call agrees with a prior row on
id, status, found, image, owner and date, and on every field absent from
the update payload. -/
theorem edit_item_frame (db : DB) (iid uid : Nat) (u : LostItemUpdate)
    (it : LostItem) (hit : it ∈ (edit_item db iid uid u).2.items) :
    ∃ it0, it0 ∈ db.items ∧
      it.status = it0.status ∧ it.found = it0.found ∧
      it.item_image = it0.item_image ∧ it.user_id = it0.user_id ∧
      it.date = it0.date ∧ it.created_at = it0.created_at ∧ it.id = it0.id ∧
      (u.item_name = none → it.item_name = it0.item_name) ∧
      (u.item_description = none → it.item_description = it0.item_description) ∧
      (u.email = none → it.email = it0.email) ∧
      (u.location = none → it.location = it0.location) := by
  unfold edit_item at hit
  rcases hf : db.items.find? (fun x => x.id == iid && x.user_id == uid) with _ | item
  · rw [hf] at hit
    simp only at hit
    exact ⟨it, hit, rfl, rfl, rfl, rfl, rfl, rfl, rfl,
           fun _ => rfl, fun _ => rfl, fun _ => rfl, fun _ => rfl⟩
  · rw [hf] at hit
    simp only at hit
    rcases mem_setFirst _ _ _ it hit with hmem | ⟨y, hy, rfl⟩
    · exact ⟨it, hmem, rfl, rfl, rfl, rfl, rfl, rfl, rfl,
             fun _ => rfl, fun _ => rfl, fun _ => rfl, fun _ => rfl⟩
    · have hy' : y ∈ db.items := List.mem_of_find?_eq_some hy
      have hfr := applyUpdate_frame y u
      exact ⟨y, hy', hfr.1, hfr.2.1, hfr.2.2.1, hfr.2.2.2.1, hfr.2.2.2.2.1,
             hfr.2.2.2.2.2.1, hfr.2.2.2.2.2.2.1, hfr.2.2.2.2.2.2.2.1,
             hfr.2.2.2.2.2.2.2.2.1, hfr.2.2.2.2.2.2.2.2.2.1,
             hfr.2.2.2.2.2.2.2.2.2.2⟩

/-- Update payload used by the edit_item witness. -/
def updSample : LostItemUpdate :=
  { item_name := some "Blue Wallet", item_description := none,
    email := none, location := none }

/-- C10 (witness). The frame theorem applied to the fixture store and a
payload that sets only the item name. -/
theorem edit_item_frame_witness :
    ∃ it0, it0 ∈ dbMain.items ∧
      ({ approvedItem with item_name := "Blue Wallet" } : LostItem).status = it0.status ∧
      ({ approvedItem with item_name := "Blue Wallet" } : LostItem).found = it0.found ∧
      ({ approvedItem with item_name := "Blue Wallet" } : LostItem).item_image = it0.item_image ∧
      ({ approvedItem with item_name := "Blue Wallet" } : LostItem).user_id = it0.user_id ∧
      ({ approvedItem with item_name := "Blue Wallet" } : LostItem).date = it0.date ∧
      ({ approvedItem with item_name := "Blue Wallet" } : LostItem).created_at = it0.created_at ∧
      ({ approvedItem with item_name := "Blue Wallet" } : LostItem).id = it0.id ∧
      (updSample.item_name = none →
        ({ approvedItem with item_name := "Blue Wallet" } : LostItem).item_name = it0.item_name) ∧
      (updSample.item_description = none →
        ({ approvedItem with item_name := "Blue Wallet" } : LostItem).item_description = it0.item_description) ∧
      (updSample.email = none →
        ({ approvedItem with item_name := "Blue Wallet" } : LostItem).email = it0.email) ∧
      (updSample.location = none →
        ({ approvedItem with item_name := "Blue Wallet" } : LostItem).location = it0.location) :=
  edit_item_frame dbMain 1 1 updSample
    { approvedItem with item_name := "Blue Wallet" } (by decide)

/-- C7. decide_item has no precondition on the current status: when the item
is absent both decisions answer 404 and leave the store unchanged; when it
exists — whatever its current status — approve answers 200 and overwrites
the status with approved, and reject answers 200 and overwrites it with
rejected. -/
theorem decide_item_no_status_precondition (db : DB) (iid : Nat) :
    (db.items.find? (fun it => it.id == iid) = none →
      (approve_item db iid).1.status_code = 404 ∧ (approve_item db iid).2 = db
      ∧ (reject_item db iid).1.status_code = 404 ∧ (reject_item db iid).2 = db)
    ∧ (∀ it, db.items.find? (fun x => x.id == iid) = some it →
        (approve_item db iid).1.status_code = 200
        ∧ (∃ it2 ∈ (approve_item db iid).2.items, it2.id = it.id ∧ it2.status = "approved")
        ∧ (reject_item db iid).1.status_code = 200
        ∧ (∃ it2 ∈ (reject_item db iid).2.items, it2.id = it.id ∧ it2.status = "rejected")) := by
  constructor
  · intro hf
    unfold approve_item reject_item
    rw [hf]
    exact ⟨rfl, rfl, rfl, rfl⟩
  · intro it hf
    unfold approve_item reject_item
    rw [hf]
    refine ⟨rfl, ⟨{ it with status := "approved" }, ?_, rfl, rfl⟩,
            rfl, ⟨{ it with status := "rejected" }, ?_, rfl, rfl⟩⟩
    · exact setFirst_mem_of_find? _ _ _ it hf
    · exact setFirst_mem_of_find? _ _ _ it hf

/-- C7 (witness). Re-deciding an already approved item: both decisions
answer 200 on fixture item 1, which is already approved. -/
theorem decide_item_no_status_precondition_witness :
    (approve_item dbMain 1).1.status_code = 200 ∧ (reject_item dbMain 1).1.status_code = 200 :=
  ⟨((decide_item_no_status_precondition dbMain 1).2 approvedItem (by decide)).1,
   ((decide_item_no_status_precondition dbMain 1).2 approvedItem (by decide)).2.2.1⟩

/-- C8. mark_as_found on an owner-matched item whose status is pending or
rejected fails with 400 and the message "Only approved items can be marked
as found" (quoted in the spec with a lower-case initial), and leaves the
store — in particular the `found` field and every other field of the item —
unchanged. -/
theorem mark_found_requires_approved (db : DB) (iid uid : Nat) (it : LostItem)
    (hf : db.items.find? (fun x => x.id == iid && x.user_id == uid) = some it)
    (hst : it.status = "pending" ∨ it.status = "rejected") :
    (mark_as_found db iid uid).1 =
      failure LostItem 400 "Only approved items can be marked as found"
    ∧ (mark_as_found db iid uid).2 = db := by
  have hne : (it.status != "approved") = true := by
    rcases hst with h | h <;> rw [h] <;> decide
  simp [mark_as_found, hf, hne]

/-- C8 (witness). The theorem applied to fixture item 2, a pending item
owned by user 1. -/
theorem mark_found_requires_approved_witness :
    (mark_as_found dbMain 2 1).1 =
      failure LostItem 400 "Only approved items can be marked as found"
    ∧ (mark_as_found dbMain 2 1).2 = dbMain :=
  mark_found_requires_approved dbMain 2 1 pendingItem (by decide) (Or.inl (by decide))

/-- Signup request used to exercise the fresh-email path. -/
def cara : UserCreate :=
  { role := "student", first_name := "Cara", last_name := "Lee",
    home_address := "5 Dorm Street", email := "cara@uni.edu",
    field_of_study := "Math", year := 1, password := "secret7" }

/-- C6 (code evaluated at the failing input). A signup whose email is not
yet registered does NOT succeed: the handler evaluates `user.fullname`,
which `UserCreate` does not declare, so the request dies in the generic
handler with a 500 and no user row; only the duplicate-email branch behaves
as specified. -/
theorem signup_internal_error_on_fresh_email :
    (signup dbMain cara).1.status_code = 500
    ∧ (signup dbMain cara).1.data = none
    ∧ (signup dbMain cara).2 = dbMain
    ∧ (signup dbMain { cara with email := "alice@uni.edu" }).1 =
        failure Nat 400 "Email already registered" := by
  refine ⟨by decide, by decide, by decide, by decide⟩

/-- A well-formed image upload. -/
def pngUpload : UploadFile := { content_type := "image/png", content := [7, 7, 7] }

/-- C9 (code evaluated at the failing input). A fully valid submission
(existing owner, lengths in range, image fine, item_type lost) does NOT
create an item: past the validations the handler constructs
`LostItem(item_type=...)`, a keyword the ORM model does not declare, so the
request dies in the generic handler with a 500 and no item row.  Violated
constraints still yield their client errors (missing owner 404, short name
400), as do submissions whose item_type is outside {lost, found} — a check
the claim does not list. -/
theorem add_item_internal_error_on_valid_request :
    (add_lost_item dbMain 1 "lost" "Red Umbrella" "A red umbrella with wooden handle"
        pngUpload "alice@uni.edu" "Library").1.status_code = 500
    ∧ (add_lost_item dbMain 1 "lost" "Red Umbrella" "A red umbrella with wooden handle"
        pngUpload "alice@uni.edu" "Library").1.data = none
    ∧ (add_lost_item dbMain 1 "lost" "Red Umbrella" "A red umbrella with wooden handle"
        pngUpload "alice@uni.edu" "Library").2 = dbMain
    ∧ (add_lost_item dbMain 99 "lost" "Red Umbrella" "A red umbrella with wooden handle"
        pngUpload "alice@uni.edu" "Library").1.status_code = 404
    ∧ (add_lost_item dbMain 1 "lost" "ab" "A red umbrella with wooden handle"
        pngUpload "alice@uni.edu" "Library").1.status_code = 400
    ∧ (add_lost_item dbMain 1 "stolen" "Red Umbrella" "A red umbrella with wooden handle"
        pngUpload "alice@uni.edu" "Library").1.status_code = 400 := by
  refine ⟨by decide, by decide, by decide, by decide, by decide, by decide⟩

/-- C4 (code evaluated at the failing input). Approving pending fixture
claim 1 when the transport does NOT deliver (delivered = false): exactly one
message is handed to the transport, addressed to the item owner, yet the
response reports email_sent = true — the helper swallows the transport
failure, so the reported flag does not equal the actual delivery outcome. -/
theorem approve_claim_email_sent_despite_failure :
    (approve_claim dbMain 1 false).1.data =
      some { claim_id := 1, status := "approved", email_sent := true }
    ∧ (approve_claim dbMain 1 false).2.2.map EmailAttempt.to_email = ["alice@uni.edu"]
    ∧ (approve_claim dbMain 1 false).2.2.map EmailAttempt.delivered = [false]
    ∧ (approve_claim dbMain 1 false).1.status_code = 200 := by
  refine ⟨by decide, by decide, by decide, by decide⟩

/-- C5 (counterexample). The notification is not restricted to actual
transitions: fixture claim 2 is already approved, yet approving it again
hands one more notification to the transport. -/
theorem approve_claim_notifies_without_transition :
    dbMain.claims.find? (fun c => c.id == 2) = some approvedClaim
    ∧ approvedClaim.status = "approved"
    ∧ (approve_claim dbMain 2 true).2.2.length = 1 := by
  refine ⟨by decide, by decide, by decide⟩

/-- C5 (amended). For every existing claim, approval answers 200 and commits
status approved whatever the transport does; rejection never hands anything
to the transport; approval hands exactly one notification to the transport
— on every approve decision, re-approvals included — when the owner and
claimant records resolve, addressed to the item owner and carrying the item
name, the claimant display name and the claim message; when they do not
resolve, no notification is attempted and that failure is reported via
email_sent = false alongside the 200 response, the committed status change
standing either way. -/
theorem claim_decision_notification (db : DB) (cid : Nat) (d : Bool) (c : Claim)
    (hc : db.claims.find? (fun x => x.id == cid) = some c) :
    (approve_claim db cid d).1.status_code = 200
    ∧ (∃ c2 ∈ (approve_claim db cid d).2.1.claims, c2.id = c.id ∧ c2.status = "approved")
    ∧ (reject_claim db cid).2.2 = []
    ∧ (∀ item owner claimant, notifLookup db c = some (item, owner, claimant) →
        (approve_claim db cid d).2.2 =
          [{ to_email := owner.email,
             subject := "Your found item " ++ sq ++ item.item_name ++ sq ++ " has been claimed",
             body := claimEmailBody owner claimant item c,
             delivered := d }]
        ∧ (approve_claim db cid d).1.data =
            some { claim_id := c.id, status := "approved", email_sent := true })
    ∧ (notifLookup db c = none →
        (approve_claim db cid d).2.2 = []
        ∧ (approve_claim db cid d).1.data =
            some { claim_id := c.id, status := "approved", email_sent := false }) := by
  unfold approve_claim reject_claim
  rw [hc]
  refine ⟨?_, ?_, ?_, ?_, ?_⟩
  · rcases hnl : notifLookup db c with _ | ⟨item, owner, claimant⟩ <;> simp only [hnl]
  · refine ⟨{ c with status := "approved" }, ?_, rfl, rfl⟩
    rcases hnl : notifLookup db c with _ | ⟨item, owner, claimant⟩ <;> simp only [hnl] <;>
      exact setFirst_mem_of_find? _ _ _ c hc
  · rfl
  · intro item owner claimant hnl
    simp [hnl, send_email]
  · intro hnl
    simp [hnl]

/-- C5 (witness). The amended theorem applied to pending fixture claim 1. -/
theorem claim_decision_notification_witness :
    (approve_claim dbMain 1 true).1.status_code = 200
    ∧ (reject_claim dbMain 1).2.2 = [] :=
  ⟨(claim_decision_notification dbMain 1 true pendingClaim (by decide)).1,
   (claim_decision_notification dbMain 1 true pendingClaim (by decide)).2.2.1⟩

/-- Stripping the empty string yields the empty string. -/
theorem pyStrip_empty : pyStrip "" = "" := rfl

/-- C2. submit_claim succeeds — 200, and exactly one new pending claim row
carrying the trimmed message — if and only if the item exists, is approved,
is not owned by the claimant, the claimant has no pending claim on it, and
the stripped message has length at least 10; any failure answers with no
data and leaves the store unchanged. -/
theorem submit_claim_spec (db : DB) (iid uid : Nat) (msg : String) (now : Nat) :
    ((claim_item db iid uid msg now).1.status_code = 200 ↔
      (∃ it, db.items.find? (fun x => x.id == iid) = some it ∧ it.status = "approved" ∧
        it.user_id ≠ uid ∧
        db.claims.find? (fun c =>
          c.user_id == uid && c.item_id == iid && c.status == "pending") = none ∧
        10 ≤ (pyStrip msg).length))
    ∧ ((claim_item db iid uid msg now).1.status_code = 200 →
        (claim_item db iid uid msg now).2.claims = db.claims ++
          [{ id := nextClaimId db, user_id := uid, item_id := iid,
             claim_message := pyStrip msg, status := "pending", created_at := now }])
    ∧ ((claim_item db iid uid msg now).1.status_code ≠ 200 →
        (claim_item db iid uid msg now).2 = db ∧ (claim_item db iid uid msg now).1.data = none) := by
  rcases hf : db.items.find? (fun x => x.id == iid) with _ | item
  · simp [claim_item, failure, hf]
  · by_cases h1 : (item.status != "approved") = true
    · have h1' : item.status ≠ "approved" := bne_iff_ne.mp h1
      simp [claim_item, failure, hf, h1, h1']
    · have h1' : item.status = "approved" := by
        simpa [bne_iff_ne] using h1
      by_cases h2 : (item.user_id == uid) = true
      · have h2' : item.user_id = uid := beq_iff_eq.mp h2
        simp [claim_item, failure, hf, h1, h2, h2']
      · have h2' : item.user_id ≠ uid := by
          simpa using h2
        by_cases h3 : (db.claims.find? (fun c =>
            c.user_id == uid && c.item_id == iid && c.status == "pending")).isSome = true
        · rcases Option.isSome_iff_exists.mp h3 with ⟨cl, hcl⟩
          simp [claim_item, failure, hf, h1, h2, h3, hcl]
        · have h3' : db.claims.find? (fun c =>
              c.user_id == uid && c.item_id == iid && c.status == "pending") = none :=
            Option.not_isSome_iff_eq_none.mp h3
          by_cases h4 : (msg = "" ∨ (pyStrip msg).length < 10)
          · have h4' : ¬ 10 ≤ (pyStrip msg).length := by
              rcases h4 with h | h
              · subst h
                rw [pyStrip_empty]
                decide
              · omega
            simp [claim_item, failure, hf, h1, h2, h3, h3', h4, h4']
          · have h4' : 10 ≤ (pyStrip msg).length := by
              push_neg at h4
              omega
            refine ⟨?_, ?_, ?_⟩
            · simp only [claim_item, hf, h1, h2, h3, h3', h4]
              simp [h1', h2', h4']
            · intro _
              simp [claim_item, hf, h1, h2, h3, h3', h4]
            · intro hne
              exact absurd (by simp [claim_item, hf, h1, h2, h3, h3', h4]) hne

/-- C2 (witness). User 3 claims approved item 1 with a long message: 200. -/
theorem submit_claim_spec_witness :
    (claim_item dbMain 1 3 "I left it in the reading hall, serial ABC123" 99).1.status_code = 200 :=
  (submit_claim_spec dbMain 1 3 "I left it in the reading hall, serial ABC123" 99).1.mpr
    ⟨approvedItem, by decide, by decide, by decide, by decide, by decide⟩

/-- Precondition (a) of submit_claim as the spec phrases it: the referenced
item does not exist. -/
def condItemMissing (db : DB) (iid : Nat) : Prop :=
  db.items.find? (fun x => x.id == iid) = none

/-- Precondition (b) of submit_claim as the spec phrases it: the item exists
but is not approved. -/
def condItemNotApproved (db : DB) (iid : Nat) : Prop :=
  ∃ it, db.items.find? (fun x => x.id == iid) = some it ∧ it.status ≠ "approved"

/-- Precondition (c) of submit_claim as the spec phrases it: the claimant
owns the item. -/
def condSelfClaim (db : DB) (iid uid : Nat) : Prop :=
  ∃ it, db.items.find? (fun x => x.id == iid) = some it ∧ it.user_id = uid

/-- Precondition (d) of submit_claim as the spec phrases it: the claimant
already has a pending claim on the item. -/
def condDuplicatePending (db : DB) (iid uid : Nat) : Prop :=
  (db.claims.find? (fun c =>
    c.user_id == uid && c.item_id == iid && c.status == "pending")).isSome = true

/-- Precondition (e) of submit_claim as the spec phrases it: the stripped
message is shorter than the 10-character minimum of this entry point. -/
def condMessageTooShort (msg : String) : Prop :=
  (pyStrip msg).length < 10

instance (db : DB) (iid : Nat) : Decidable (condItemMissing db iid) := by
  unfold condItemMissing
  infer_instance

instance (db : DB) (iid uid : Nat) : Decidable (condDuplicatePending db iid uid) := by
  unfold condDuplicatePending
  infer_instance

instance (msg : String) : Decidable (condMessageTooShort msg) := by
  unfold condMessageTooShort
  infer_instance

/-- C3. Fixed failure precedence of submit_claim: whenever several failure
conditions hold simultaneously, the one reported is the earliest of
existence, state precondition, authorization, uniqueness, content
validation — each conjunct below constrains only the earlier conditions and
leaves the later ones free to hold or not. -/
theorem submit_claim_precedence (db : DB) (iid uid : Nat) (msg : String) (now : Nat) :
    (condItemMissing db iid →
      (claim_item db iid uid msg now).1 = failure (Nat × Nat × String) 404 "Item not found")
    ∧ (¬ condItemMissing db iid → condItemNotApproved db iid →
      (claim_item db iid uid msg now).1 =
        failure (Nat × Nat × String) 400 "Items must be approved by admin before claiming")
    ∧ (¬ condItemMissing db iid → ¬ condItemNotApproved db iid → condSelfClaim db iid uid →
      (claim_item db iid uid msg now).1 =
        failure (Nat × Nat × String) 400 "You cannot claim your own item")
    ∧ (¬ condItemMissing db iid → ¬ condItemNotApproved db iid → ¬ condSelfClaim db iid uid →
       condDuplicatePending db iid uid →
      (claim_item db iid uid msg now).1 =
        failure (Nat × Nat × String) 400 "You already have a pending claim for this item")
    ∧ (¬ condItemMissing db iid → ¬ condItemNotApproved db iid → ¬ condSelfClaim db iid uid →
       ¬ condDuplicatePending db iid uid → condMessageTooShort msg →
      (claim_item db iid uid msg now).1 =
        failure (Nat × Nat × String) 400 "Claim message must be at least 10 characters") := by
  rcases hf : db.items.find? (fun x => x.id == iid) with _ | item
  · refine ⟨fun _ => by simp [claim_item, hf], ?_, ?_, ?_, ?_⟩ <;>
      · intro hA
        exact absurd hf hA
  · have hnA : ¬ condItemMissing db iid := by
      unfold condItemMissing
      rw [hf]
      simp
    refine ⟨fun hA => absurd hA hnA, ?_, ?_, ?_, ?_⟩
    · intro _ hB
      rcases hB with ⟨it, hit, hst⟩
      rw [hf] at hit
      cases hit
      have h1 : (item.status != "approved") = true := bne_iff_ne.mpr hst
      simp [claim_item, hf, h1]
    · intro _ hnB hC
      have happr : item.status = "approved" := by
        by_contra hne
        exact hnB ⟨item, hf, hne⟩
      rcases hC with ⟨it, hit, hown⟩
      rw [hf] at hit
      cases hit
      have h2 : (item.user_id == uid) = true := beq_iff_eq.mpr hown
      simp [claim_item, hf, happr, h2]
    · intro _ hnB hnC hD
      have happr : item.status = "approved" := by
        by_contra hne
        exact hnB ⟨item, hf, hne⟩
      have hself : item.user_id ≠ uid := fun he => hnC ⟨item, hf, he⟩
      rcases Option.isSome_iff_exists.mp hD with ⟨cl, hcl⟩
      simp [claim_item, hf, happr, hself, hcl]
    · intro _ hnB hnC hnD hE
      have happr : item.status = "approved" := by
        by_contra hne
        exact hnB ⟨item, hf, hne⟩
      have hself : item.user_id ≠ uid := fun he => hnC ⟨item, hf, he⟩
      have hdup : db.claims.find? (fun c =>
          c.user_id == uid && c.item_id == iid && c.status == "pending") = none :=
        Option.not_isSome_iff_eq_none.mp hnD
      have hmsg : (msg = "" ∨ (pyStrip msg).length < 10) := Or.inr hE
      simp [claim_item, hf, happr, hself, hdup, hmsg]

/-- C3 (witness). On a pending item owned by the caller with a short
message, three failure conditions hold at once; the reported failure is the
state precondition, the earliest of them. -/
theorem submit_claim_precedence_witness :
    (claim_item dbMain 2 1 "short" 0).1 =
      failure (Nat × Nat × String) 400 "Items must be approved by admin before claiming" :=
  (submit_claim_precedence dbMain 2 1 "short" 0).2.1 (by decide)
    ⟨pendingItem, by decide, by decide⟩

end LostFound
